import Mathlib

/-!
Shallow embedding of `src/transports/websocket/_websocket_factory.ts`.

The file under verification is a small WebSocket factory:

* `WebSocketCompatibilityError`, a subclass of the `TransportError` base class
  (the base class lives in `../base.ts`, outside the provided sources, and is
  modelled from the specification);
* `createCompatibleWebSocketSync(url, protocols)`, which delegates to the
  external `ws` constructor and wraps any thrown value in a
  `WebSocketCompatibilityError`;
* `createCompatibleWebSocket(url, protocols)`, the `async` wrapper around the
  synchronous factory;
* `requiresWsPackage()`, a constant `false`;
* `getWebSocketEnvironmentInfo()`, which probes the ambient `process` global.

The external `ws` constructor is abstracted as a function
`Url → Protocols → Except Err Handle` (`Except.error` models a thrown value),
and JavaScript string conversion of the thrown value (the `${error}` template)
is abstracted as `errToString : Err → String`.  The ambient environment is
modelled by `JsEnv`: the `process` global is either absent (`none`) or a
record whose `versions` field and `versions.node` field may each be absent,
matching the shape the source's `typeof` test and optional chaining probe.
JavaScript numbers that can be `null` or `NaN` are modelled by `JsNumber`,
and `parseInt(s, 10)` together with `s.split(".")[0]` are modelled character
by character (`parseIntBase10`, `firstDotComponent`).
-/

/- ### The error data model -/

/-- Model of the `ErrorOptions` argument of a JavaScript `Error` constructor:
an optional record whose `cause` property is an optional opaque value. -/
structure ErrorOptions (Err : Type) where
  cause : Option Err
deriving DecidableEq

/-- Modelled from the spec: the `TransportError` base class is imported from
`../base.ts`, which is not under `src/`; the spec describes it as "a generic
base error type (fields: message, options including a cause reference)".
Constructing one stores the optional message, the cause carried by the
options, and a discriminant `name` (overwritten by subclasses). -/
structure TransportError (Err : Type) where
  message : Option String
  cause : Option Err
  name : String
deriving DecidableEq

/-- Evaluation of `new TransportError(message, options)`: the base class
stores the message and the options' cause reference. -/
def TransportError.new {Err : Type} (message : Option String)
    (options : Option (ErrorOptions Err)) : TransportError Err :=
  { message := message
    cause := Option.bind options (fun o => o.cause)
    name := "TransportError" }

/-- Evaluation of `new WebSocketCompatibilityError(message, options)`:
`super(message, options)` followed by `this.name = "WebSocketCompatibilityError"`.
The subclass adds no fields, so its instances are `TransportError` values. -/
def WebSocketCompatibilityError.make {Err : Type} (message : Option String)
    (options : Option (ErrorOptions Err)) : TransportError Err :=
  { TransportError.new message options with name := "WebSocketCompatibilityError" }

/- ### The factory functions -/

/-- Embedding of `createCompatibleWebSocketSync(url, protocols)`:
`try { return new WebSocket(url, protocols) } catch (error) { throw new
WebSocketCompatibilityError(`Failed to create WebSocket: ${error}`,
{ cause: error }) }`.  The underlying constructor is the abstract `wsCtor`;
a thrown value is an `Except.error`. -/
def createCompatibleWebSocketSync {Url Protocols Err Handle : Type}
    (wsCtor : Url → Protocols → Except Err Handle) (errToString : Err → String)
    (url : Url) (protocols : Protocols) : Except (TransportError Err) Handle :=
  match wsCtor url protocols with
  | Except.ok ws => Except.ok ws
  | Except.error e =>
      Except.error (WebSocketCompatibilityError.make
        (some ("Failed to create WebSocket: " ++ errToString e))
        (some { cause := some e }))

/-- Instrumented run of `createCompatibleWebSocketSync` that also records every
invocation of the underlying constructor together with the arguments it was
given.  The body mirrors the source: the single `new WebSocket(url, protocols)`
inside the `try` block is the only constructor invocation. -/
def createCompatibleWebSocketSyncCalls {Url Protocols Err Handle : Type}
    (wsCtor : Url → Protocols → Except Err Handle) (errToString : Err → String)
    (url : Url) (protocols : Protocols) :
    Except (TransportError Err) Handle × List (Url × Protocols) :=
  let invoke : Url → Protocols → Except Err Handle × List (Url × Protocols) :=
    fun u p => (wsCtor u p, [(u, p)])
  let res := invoke url protocols
  match res.1 with
  | Except.ok ws => (Except.ok ws, res.2)
  | Except.error e =>
      (Except.error (WebSocketCompatibilityError.make
        (some ("Failed to create WebSocket: " ++ errToString e))
        (some { cause := some e })), res.2)

/-- Settlement of a JavaScript promise: it either resolves with a value or
rejects with an error value. -/
inductive PromiseOutcome (E A : Type) where
  | resolved : A → PromiseOutcome E A
  | rejected : E → PromiseOutcome E A
deriving DecidableEq

/-- Embedding of the `async` function `createCompatibleWebSocket(url,
protocols)`, whose body is `return createCompatibleWebSocketSync(url,
protocols)`.  An `async` body that returns a value yields a promise resolved
with that value; a body that throws yields a promise rejected with the thrown
error. -/
def createCompatibleWebSocket {Url Protocols Err Handle : Type}
    (wsCtor : Url → Protocols → Except Err Handle) (errToString : Err → String)
    (url : Url) (protocols : Protocols) :
    PromiseOutcome (TransportError Err) Handle :=
  match createCompatibleWebSocketSync wsCtor errToString url protocols with
  | Except.ok ws => PromiseOutcome.resolved ws
  | Except.error e => PromiseOutcome.rejected e

/-- Embedding of `requiresWsPackage()`: `return false`. -/
def requiresWsPackage : Bool :=
  false

/- ### The environment probe -/

/-- Shape of the `process.versions` object: its `node` field is a version
string or absent. -/
structure NodeVersions where
  node : Option String
deriving DecidableEq

/-- Shape of the ambient `process` global when present: its `versions` field
is a `NodeVersions` object or absent (absent also covers `null`, which the
source's optional chaining treats the same way). -/
structure NodeProcess where
  versions : Option NodeVersions
deriving DecidableEq

/-- Ambient environment state probed by `getWebSocketEnvironmentInfo`: the
`process` global is either absent (`typeof` yields `"undefined"`) or a
`NodeProcess` object. -/
structure JsEnv where
  process : Option NodeProcess
deriving DecidableEq

/-- A JavaScript `number | null` value as it appears in the
`nodeMajorVersion` field: `null`, `NaN` (what `parseInt` yields on a
non-numeric string), or an integer. -/
inductive JsNumber where
  | null : JsNumber
  | nan : JsNumber
  | int : Int → JsNumber
deriving DecidableEq

/-- Value of the probe expression
`typeof globalProcess !== "undefined" && globalProcess.versions?.node`:
the boolean `false` when the short-circuit stops at the `typeof` test,
`undefined` when optional chaining hits an absent field, or the version
string itself. -/
inductive NodeProbe where
  | boolFalse : NodeProbe
  | undef : NodeProbe
  | str : String → NodeProbe
deriving DecidableEq

/-- Evaluation of the probe expression against an ambient environment. -/
def nodeProbeValue (env : JsEnv) : NodeProbe :=
  match env.process with
  | none => NodeProbe.boolFalse
  | some p =>
    match p.versions with
    | none => NodeProbe.undef
    | some v =>
      match v.node with
      | none => NodeProbe.undef
      | some s => NodeProbe.str s

/-- JavaScript truthiness of the probe value: `false` and `undefined` are
falsy; a string is truthy exactly when it is nonempty.  `!!isNode` in the
source is this coercion. -/
def NodeProbe.truthy : NodeProbe → Bool
  | NodeProbe.str s => decide (s ≠ "")
  | _ => false

/-- Characters trimmed from the front of the input by `parseInt` (ASCII
whitespace; exotic Unicode whitespace never occurs in version strings and is
not modelled). -/
def jsWhitespace (c : Char) : Bool :=
  c = ' ' || c = '\t' || c = '\n' || c = '\r' || c = '\x0b' || c = '\x0c'

/-- Base-10 value of a list of decimal digit characters, most significant
first. -/
def digitsVal (ds : List Char) : Nat :=
  ds.foldl (fun a c => a * 10 + (c.toNat - 48)) 0

/-- The core of `parseInt(s, 10)` after trimming and sign handling: take the
longest prefix of decimal digits; `NaN` if it is empty, its value otherwise. -/
def parseDigitsJs (l : List Char) : JsNumber :=
  let ds := l.takeWhile Char.isDigit
  if ds.isEmpty then JsNumber.nan else JsNumber.int (digitsVal ds : Int)

/-- Sign handling of `parseInt(s, 10)` after whitespace trimming: consume an
optional sign, then parse the longest digit prefix (`NaN` when there is
none). -/
def parseSignedJs : List Char → JsNumber
  | [] => JsNumber.nan
  | c :: rest =>
    if c = '-' then
      match parseDigitsJs rest with
      | JsNumber.int n => JsNumber.int (-n)
      | r => r
    else if c = '+' then parseDigitsJs rest
    else parseDigitsJs (c :: rest)

/-- Embedding of `parseInt(s, 10)`: trim leading whitespace, then parse an
optionally signed run of decimal digits. -/
def parseIntBase10 (s : String) : JsNumber :=
  parseSignedJs (s.data.dropWhile jsWhitespace)

/-- Embedding of `s.split(".")[0]`: the characters of `s` before the first
`'.'` (all of `s` when there is no dot). -/
def firstDotComponent (s : String) : String :=
  String.mk (s.data.takeWhile (fun c => c != '.'))

/-- The record returned by `getWebSocketEnvironmentInfo`. -/
structure WebSocketEnvironmentInfo where
  isNode : Bool
  nodeMajorVersion : JsNumber
  hasReliableNativeWebSocket : Bool
  requiresWsPackage : Bool
deriving DecidableEq

/-- Embedding of `getWebSocketEnvironmentInfo()`:
`const isNode = typeof globalProcess !== "undefined" && globalProcess.versions?.node;`
`const nodeMajorVersion = isNode ? parseInt(globalProcess.versions.node.split(".")[0], 10) : null;`
and the returned record coerces `isNode` with `!!` and fixes the last two
fields to `true` and `false`. -/
def getWebSocketEnvironmentInfo (env : JsEnv) : WebSocketEnvironmentInfo :=
  let isNodeRaw := nodeProbeValue env
  let nodeMajorVersion : JsNumber :=
    match isNodeRaw with
    | NodeProbe.str s =>
        if s = "" then JsNumber.null else parseIntBase10 (firstDotComponent s)
    | _ => JsNumber.null
  { isNode := isNodeRaw.truthy
    nodeMajorVersion := nodeMajorVersion
    hasReliableNativeWebSocket := true
    requiresWsPackage := false }

/-- Specification-side notion used by the claims: the leading base-10 integer
component of a version string is the value of its maximal leading run of
decimal digits, absent when the string does not start with a digit. -/
def leadingIntComponent (s : String) : Option Nat :=
  let ds := s.data.takeWhile Char.isDigit
  if ds.isEmpty then none else some (digitsVal ds)

/- ### Helper lemmas -/

theorem string_data_mk (l : List Char) : (String.mk l).data = l :=
  rfl

theorem digit_not_jsWhitespace {c : Char} (h : c.isDigit = true) :
    jsWhitespace c = false := by
  cases hw : jsWhitespace c with
  | false => rfl
  | true =>
    exfalso
    unfold jsWhitespace at hw
    simp only [Bool.or_eq_true, decide_eq_true_eq] at hw
    rcases hw with ((((h1 | h1) | h1) | h1) | h1) | h1 <;> subst h1 <;>
      exact absurd h (by decide)

theorem digit_ne_minus {c : Char} (h : c.isDigit = true) : c ≠ '-' := by
  intro h1; subst h1; exact absurd h (by decide)

theorem digit_ne_plus {c : Char} (h : c.isDigit = true) : c ≠ '+' := by
  intro h1; subst h1; exact absurd h (by decide)

theorem digit_bne_dot {c : Char} (h : c.isDigit = true) : (c != '.') = true := by
  simp only [bne_iff_ne, ne_eq]
  intro h1; subst h1; exact absurd h (by decide)

theorem takeWhile_digit_before_dot (l : List Char) :
    (l.takeWhile (fun c => c != '.')).takeWhile Char.isDigit =
      l.takeWhile Char.isDigit := by
  induction l with
  | nil => rfl
  | cons c t ih =>
    by_cases hdot : (c != '.') = true
    · rw [List.takeWhile_cons_of_pos (p := fun x => x != '.') hdot]
      by_cases hd : c.isDigit = true
      · rw [List.takeWhile_cons_of_pos (p := Char.isDigit) hd,
          List.takeWhile_cons_of_pos (p := Char.isDigit) hd, ih]
      · rw [List.takeWhile_cons_of_neg (p := Char.isDigit) hd,
          List.takeWhile_cons_of_neg (p := Char.isDigit) hd]
    · rw [List.takeWhile_cons_of_neg (p := fun x => x != '.') hdot]
      have hd : ¬c.isDigit = true := by
        intro hd
        exact hdot (digit_bne_dot hd)
      rw [List.takeWhile_cons_of_neg (p := Char.isDigit) hd]
      rfl

theorem parseSignedJs_digit {c : Char} {t : List Char} (hc : c.isDigit = true) :
    parseSignedJs (c :: t) = parseDigitsJs (c :: t) := by
  simp only [parseSignedJs]
  rw [if_neg (digit_ne_minus hc), if_neg (digit_ne_plus hc)]

theorem parseIntBase10_firstDotComponent {s : String} {k : Nat}
    (h : leadingIntComponent s = some k) :
    parseIntBase10 (firstDotComponent s) = JsNumber.int (k : Int) := by
  simp only [leadingIntComponent] at h
  by_cases he : (s.data.takeWhile Char.isDigit).isEmpty = true
  · rw [if_pos he] at h
    exact absurd h (by simp)
  · rw [if_neg he] at h
    have hk : digitsVal (s.data.takeWhile Char.isDigit) = k :=
      Option.some.inj h
    cases hs : s.data with
    | nil => rw [hs] at he; exact absurd rfl he
    | cons c t =>
      rw [hs] at he hk
      have hc : c.isDigit = true := by
        by_contra hc
        rw [List.takeWhile_cons_of_neg hc] at he
        exact absurd rfl he
      have hfd : (firstDotComponent s).data =
          c :: t.takeWhile (fun x => x != '.') := by
        unfold firstDotComponent
        rw [string_data_mk, hs,
          List.takeWhile_cons_of_pos (p := fun x => x != '.') (digit_bne_dot hc)]
      have hdrop : (firstDotComponent s).data.dropWhile jsWhitespace =
          c :: t.takeWhile (fun x => x != '.') := by
        rw [hfd, List.dropWhile_cons, digit_not_jsWhitespace hc]
        simp
      have hds : (c :: t.takeWhile (fun x => x != '.')).takeWhile Char.isDigit =
          (c :: t).takeWhile Char.isDigit := by
        have h2 := takeWhile_digit_before_dot (c :: t)
        rwa [List.takeWhile_cons_of_pos (p := fun x => x != '.')
          (digit_bne_dot hc)] at h2
      rw [parseIntBase10, hdrop, parseSignedJs_digit hc, parseDigitsJs]
      simp only [hds]
      rw [if_neg (by simpa using he), hk]

/- ### Claim theorems -/

/-- Claim C1: whenever the underlying WebSocket constructor throws a value
`e`, `createCompatibleWebSocketSync` throws a `WebSocketCompatibilityError`
whose message is exactly `"Failed to create WebSocket: "` followed by the
string representation of `e` and whose cause is the very value `e`; and this
wrapping is the only error path: an error is raised only when the underlying
constructor throws, and it is always that wrapped error. -/
theorem sync_wraps_ctor_failure {Url Protocols Err Handle : Type}
    (wsCtor : Url → Protocols → Except Err Handle) (errToString : Err → String)
    (url : Url) (protocols : Protocols) :
    (∀ e : Err, wsCtor url protocols = Except.error e →
      createCompatibleWebSocketSync wsCtor errToString url protocols =
        Except.error
          { message := some ("Failed to create WebSocket: " ++ errToString e)
            cause := some e
            name := "WebSocketCompatibilityError" }) ∧
    (∀ err : TransportError Err,
      createCompatibleWebSocketSync wsCtor errToString url protocols =
          Except.error err →
      ∃ e : Err, wsCtor url protocols = Except.error e ∧
        err = { message := some ("Failed to create WebSocket: " ++ errToString e)
                cause := some e
                name := "WebSocketCompatibilityError" }) := by
  constructor
  · intro e he
    unfold createCompatibleWebSocketSync
    rw [he]
    rfl
  · intro err herr
    unfold createCompatibleWebSocketSync at herr
    cases hc : wsCtor url protocols with
    | ok w =>
      rw [hc] at herr
      exact absurd herr (by simp)
    | error e =>
      rw [hc] at herr
      injection herr with h
      exact ⟨e, rfl, by rw [← h]; rfl⟩

/-- Witness for C1: a constructor that throws the string `"boom"` yields the
wrapped compatibility error with the expected message and cause. -/
theorem sync_wraps_ctor_failure_witness :
    createCompatibleWebSocketSync
        (fun (_ : String) (_ : Option String) =>
          (Except.error "boom" : Except String Nat))
        (fun e => e) "not-a-valid-url" none =
      Except.error
        { message := some ("Failed to create WebSocket: " ++ "boom")
          cause := some "boom"
          name := "WebSocketCompatibilityError" } :=
  (sync_wraps_ctor_failure _ _ _ _).1 "boom" rfl

/-- Claim C2: the asynchronous factory is observationally equivalent to the
synchronous one modulo asynchronous delivery: `createCompatibleWebSocket`
resolves with a handle exactly when `createCompatibleWebSocketSync` returns
that handle, and rejects with an error exactly when the synchronous function
throws that same error. -/
theorem async_equiv_sync {Url Protocols Err Handle : Type}
    (wsCtor : Url → Protocols → Except Err Handle) (errToString : Err → String)
    (url : Url) (protocols : Protocols) :
    (∀ h : Handle,
      createCompatibleWebSocket wsCtor errToString url protocols =
          PromiseOutcome.resolved h ↔
        createCompatibleWebSocketSync wsCtor errToString url protocols =
          Except.ok h) ∧
    (∀ e : TransportError Err,
      createCompatibleWebSocket wsCtor errToString url protocols =
          PromiseOutcome.rejected e ↔
        createCompatibleWebSocketSync wsCtor errToString url protocols =
          Except.error e) := by
  cases hc : createCompatibleWebSocketSync wsCtor errToString url protocols with
  | ok w => simp [createCompatibleWebSocket, hc]
  | error e => simp [createCompatibleWebSocket, hc]

/-- Witness for C2: with a constructor that succeeds with handle `7`, the
asynchronous factory resolves with `7`. -/
theorem async_equiv_sync_witness :
    createCompatibleWebSocket
        (fun (_ : String) (_ : Option String) =>
          (Except.ok 7 : Except String Nat))
        (fun e => e) "ws://example.test:80/socket" none =
      PromiseOutcome.resolved 7 :=
  ((async_equiv_sync _ _ _ _).1 7).2 rfl

/-- Claim C7: `requiresWsPackage()` returns `false` on every call; it is a
closed constant, reading no environment state and having no effects. -/
theorem requiresWsPackage_always_false : requiresWsPackage = false :=
  rfl

/-- Claim C8: on every input, the synchronous factory invokes the underlying
constructor exactly once, passing the url and protocols through unmodified;
when the constructor accepts the input the resulting handle is returned
unmodified and nothing is thrown; and the result depends on the constructor
only through its value at the given arguments. -/
theorem sync_single_delegation {Url Protocols Err Handle : Type}
    (wsCtor : Url → Protocols → Except Err Handle) (errToString : Err → String)
    (url : Url) (protocols : Protocols) :
    (createCompatibleWebSocketSyncCalls wsCtor errToString url protocols).2 =
        [(url, protocols)] ∧
    (createCompatibleWebSocketSyncCalls wsCtor errToString url protocols).1 =
        createCompatibleWebSocketSync wsCtor errToString url protocols ∧
    (∀ h : Handle, wsCtor url protocols = Except.ok h →
      createCompatibleWebSocketSync wsCtor errToString url protocols =
        Except.ok h) ∧
    (∀ wsCtor2 : Url → Protocols → Except Err Handle,
      wsCtor url protocols = wsCtor2 url protocols →
      createCompatibleWebSocketSync wsCtor errToString url protocols =
        createCompatibleWebSocketSync wsCtor2 errToString url protocols) := by
  refine ⟨?_, ?_, ?_, ?_⟩
  · cases hc : wsCtor url protocols <;>
      simp [createCompatibleWebSocketSyncCalls, hc]
  · cases hc : wsCtor url protocols <;>
      simp [createCompatibleWebSocketSyncCalls,
        createCompatibleWebSocketSync, hc]
  · intro h hok
    unfold createCompatibleWebSocketSync
    rw [hok]
  · intro wsCtor2 h2
    unfold createCompatibleWebSocketSync
    rw [← h2]

/-- Witness for C8: a constructor that accepts the input and returns handle
`5` makes the synchronous factory return exactly that handle. -/
theorem sync_single_delegation_witness :
    createCompatibleWebSocketSync
        (fun (_ : String) (_ : Option String) =>
          (Except.ok 5 : Except String Nat))
        (fun e => e) "ws://example.test:80/socket" none = Except.ok 5 :=
  (sync_single_delegation _ _ _ _).2.2.1 5 rfl

/-- Claim C9: every constructed `WebSocketCompatibilityError`, for any
combination of present or absent message and options arguments, carries the
fixed discriminant name `"WebSocketCompatibilityError"`, agrees with the
`TransportError` base constructor (the `super` call) on message and cause,
and is exactly a `TransportError` value holding the message, the cause taken
from the options, and the name — no other state. -/
theorem compat_error_invariants (Err : Type) (message : Option String)
    (options : Option (ErrorOptions Err)) :
    (WebSocketCompatibilityError.make message options).name =
        "WebSocketCompatibilityError" ∧
    (WebSocketCompatibilityError.make message options).message =
        (TransportError.new message options).message ∧
    (WebSocketCompatibilityError.make message options).cause =
        (TransportError.new message options).cause ∧
    WebSocketCompatibilityError.make message options =
      ({ message := message
         cause := Option.bind options (fun o => o.cause)
         name := "WebSocketCompatibilityError" } : TransportError Err) :=
  ⟨rfl, rfl, rfl, rfl⟩

theorem nodeProbeValue_some {env : JsEnv} {p : NodeProcess} {v : NodeVersions}
    {s : String} (hp : env.process = some p) (hv : p.versions = some v)
    (hn : v.node = some s) : nodeProbeValue env = NodeProbe.str s := by
  simp [nodeProbeValue, hp, hv, hn]

theorem nodeProbeValue_str {env : JsEnv} {s : String}
    (h : nodeProbeValue env = NodeProbe.str s) :
    ∃ p v, env.process = some p ∧ p.versions = some v ∧ v.node = some s := by
  cases hp : env.process with
  | none => simp [nodeProbeValue, hp] at h
  | some p =>
    cases hv : p.versions with
    | none => simp [nodeProbeValue, hp, hv] at h
    | some v =>
      cases hn : v.node with
      | none => simp [nodeProbeValue, hp, hv, hn] at h
      | some s2 =>
        simp only [nodeProbeValue, hp, hv, hn, NodeProbe.str.injEq] at h
        subst h
        exact ⟨p, v, rfl, hv, hn⟩

theorem envInfo_of_probe_str {env : JsEnv} {s : String}
    (h : nodeProbeValue env = NodeProbe.str s) :
    getWebSocketEnvironmentInfo env =
      { isNode := decide (s ≠ "")
        nodeMajorVersion :=
          if s = "" then JsNumber.null
          else parseIntBase10 (firstDotComponent s)
        hasReliableNativeWebSocket := true
        requiresWsPackage := false } := by
  unfold getWebSocketEnvironmentInfo
  rw [h]
  rfl

theorem envInfo_of_probe_falsy {env : JsEnv}
    (h : nodeProbeValue env = NodeProbe.boolFalse ∨
      nodeProbeValue env = NodeProbe.undef) :
    getWebSocketEnvironmentInfo env =
      { isNode := false, nodeMajorVersion := JsNumber.null,
        hasReliableNativeWebSocket := true, requiresWsPackage := false } := by
  unfold getWebSocketEnvironmentInfo
  rcases h with h | h <;> rw [h] <;> rfl

/-- Claim C3: when the ambient `process` global exists and reports a version
string whose leading component is a base-10 integer, the probe returns
`isNode = true` and `nodeMajorVersion` equal to that leading integer
component; when the global is absent it returns `isNode = false` and
`nodeMajorVersion = null`. -/
theorem envInfo_node_detection (env : JsEnv) :
    (∀ (p : NodeProcess) (v : NodeVersions) (s : String) (k : Nat),
      env.process = some p → p.versions = some v → v.node = some s →
      leadingIntComponent s = some k →
      getWebSocketEnvironmentInfo env =
        { isNode := true, nodeMajorVersion := JsNumber.int (k : Int),
          hasReliableNativeWebSocket := true, requiresWsPackage := false }) ∧
    (env.process = none →
      getWebSocketEnvironmentInfo env =
        { isNode := false, nodeMajorVersion := JsNumber.null,
          hasReliableNativeWebSocket := true, requiresWsPackage := false }) := by
  constructor
  · intro p v s k hp hv hn hk
    have hprobe : nodeProbeValue env = NodeProbe.str s :=
      nodeProbeValue_some hp hv hn
    have hsne : s ≠ "" := by
      intro h0
      subst h0
      have h1 : leadingIntComponent "" = none := rfl
      rw [h1] at hk
      exact Option.noConfusion hk
    rw [envInfo_of_probe_str hprobe, if_neg hsne,
      parseIntBase10_firstDotComponent hk]
    simp [hsne]
  · intro hp
    apply envInfo_of_probe_falsy
    left
    simp [nodeProbeValue, hp]

/-- Witness for C3: under a process global reporting version `"18.2.0"`, the
probe reports a Node environment of major version 18; the absent-global
fallback is exercised by the C5 witness. -/
theorem envInfo_node_detection_witness :
    getWebSocketEnvironmentInfo
        { process := some { versions := some { node := some "18.2.0" } } } =
      { isNode := true, nodeMajorVersion := JsNumber.int 18,
        hasReliableNativeWebSocket := true, requiresWsPackage := false } :=
  (envInfo_node_detection _).1 _ _ "18.2.0" 18 rfl rfl rfl (by decide)

/-- Counterexample to claim C4 as stated: with the malformed version string
`"beta.1"` (nonempty, non-numeric leading component) the function returns
`nodeMajorVersion = NaN`, which is not the absent value `null` the claim
promises. -/
theorem envInfo_malformed_not_null :
    (getWebSocketEnvironmentInfo
        { process := some { versions := some { node := some "beta.1" } } }
      ).nodeMajorVersion = JsNumber.nan ∧
    JsNumber.nan ≠ JsNumber.null ∧
    leadingIntComponent "beta.1" = none := by
  refine ⟨?_, by decide, by decide⟩
  rfl

/-- Claim C4 amended: for every ambient environment whose host version string
is nonempty and malformed (its leading component does not parse as a base-10
integer, so `parseInt` yields `NaN`), `getWebSocketEnvironmentInfo` silently
returns `nodeMajorVersion = NaN` — not `null` — rather than signaling an
error. -/
theorem envInfo_malformed_silent_nan (env : JsEnv) (p : NodeProcess)
    (v : NodeVersions) (s : String) (hp : env.process = some p)
    (hv : p.versions = some v) (hn : v.node = some s) (hs : s ≠ "")
    (hbad : parseIntBase10 (firstDotComponent s) = JsNumber.nan) :
    getWebSocketEnvironmentInfo env =
      { isNode := true, nodeMajorVersion := JsNumber.nan,
        hasReliableNativeWebSocket := true, requiresWsPackage := false } := by
  have hprobe : nodeProbeValue env = NodeProbe.str s :=
    nodeProbeValue_some hp hv hn
  rw [envInfo_of_probe_str hprobe, if_neg hs, hbad]
  simp [hs]

/-- Witness for C4 amended: version string `"v20.3"` has the non-numeric
leading component `"v20"`, and the probe returns `NaN` silently. -/
theorem envInfo_malformed_silent_nan_witness :
    getWebSocketEnvironmentInfo
        { process := some { versions := some { node := some "v20.3" } } } =
      { isNode := true, nodeMajorVersion := JsNumber.nan,
        hasReliableNativeWebSocket := true, requiresWsPackage := false } :=
  envInfo_malformed_silent_nan _ _ _ "v20.3" rfl rfl rfl (by decide) (by decide)

/-- Claim C5: `getWebSocketEnvironmentInfo` is a total function of the
ambient environment with no error path: absence of the `process` global
yields the defined fallback `isNode = false`, `nodeMajorVersion = null`, and
whenever the probe is falsy the version falls back to `null` rather than
failing. -/
theorem envInfo_total_with_fallback (env : JsEnv) :
    (env.process = none →
      getWebSocketEnvironmentInfo env =
        { isNode := false, nodeMajorVersion := JsNumber.null,
          hasReliableNativeWebSocket := true, requiresWsPackage := false }) ∧
    ((getWebSocketEnvironmentInfo env).isNode = false →
      (getWebSocketEnvironmentInfo env).nodeMajorVersion = JsNumber.null) := by
  constructor
  · intro hp
    apply envInfo_of_probe_falsy
    left
    simp [nodeProbeValue, hp]
  · intro hfalse
    cases hprobe : nodeProbeValue env with
    | boolFalse => rw [envInfo_of_probe_falsy (Or.inl hprobe)]
    | undef => rw [envInfo_of_probe_falsy (Or.inr hprobe)]
    | str s =>
      have ht : (NodeProbe.str s).truthy = false := by
        have hh : (getWebSocketEnvironmentInfo env).isNode =
            (nodeProbeValue env).truthy := rfl
        rw [hh, hprobe] at hfalse
        exact hfalse
      have hs : s = "" := by
        simp only [NodeProbe.truthy, decide_eq_false_iff_not, ne_eq,
          not_not] at ht
        exact ht
      rw [envInfo_of_probe_str hprobe, if_pos hs]

/-- Witness for C5: with the `process` global absent the function returns the
defined fallback record. -/
theorem envInfo_total_with_fallback_witness :
    getWebSocketEnvironmentInfo { process := none } =
      { isNode := false, nodeMajorVersion := JsNumber.null,
        hasReliableNativeWebSocket := true, requiresWsPackage := false } :=
  (envInfo_total_with_fallback { process := none }).1 rfl

/-- Claim C6: for every ambient environment state, the returned record has
`hasReliableNativeWebSocket = true` and `requiresWsPackage = false`,
unconditionally. -/
theorem envInfo_constant_fields (env : JsEnv) :
    (getWebSocketEnvironmentInfo env).hasReliableNativeWebSocket = true ∧
    (getWebSocketEnvironmentInfo env).requiresWsPackage = false :=
  ⟨rfl, rfl⟩

/-- Claim C10: `getWebSocketEnvironmentInfo` reports `isNode = false` and
`nodeMajorVersion = null` not only when the `process` global is absent, but
also whenever the global exists with missing or falsy version metadata (no
`versions` object, no `node` field, or an empty version string); and the
returned `isNode` is a strict boolean that is `true` exactly when a nonempty
version string is present — never the raw truthy probe value. -/
theorem envInfo_falsy_metadata (env : JsEnv) :
    (∀ p : NodeProcess, env.process = some p →
      (p.versions = none ∨
        (∃ v : NodeVersions, p.versions = some v ∧
          (v.node = none ∨ v.node = some ""))) →
      getWebSocketEnvironmentInfo env =
        { isNode := false, nodeMajorVersion := JsNumber.null,
          hasReliableNativeWebSocket := true, requiresWsPackage := false }) ∧
    ((getWebSocketEnvironmentInfo env).isNode = true ↔
      ∃ (p : NodeProcess) (v : NodeVersions) (s : String),
        env.process = some p ∧ p.versions = some v ∧ v.node = some s ∧
          s ≠ "") := by
  constructor
  · rintro p hp (hv | ⟨v, hv, hn | hn⟩)
    · apply envInfo_of_probe_falsy
      right
      simp [nodeProbeValue, hp, hv]
    · apply envInfo_of_probe_falsy
      right
      simp [nodeProbeValue, hp, hv, hn]
    · have hprobe : nodeProbeValue env = NodeProbe.str "" :=
        nodeProbeValue_some hp hv hn
      rw [envInfo_of_probe_str hprobe, if_pos rfl]
      simp
  · constructor
    · intro ht
      have ht2 : (nodeProbeValue env).truthy = true := ht
      cases hprobe : nodeProbeValue env with
      | boolFalse => rw [hprobe] at ht2; cases ht2
      | undef => rw [hprobe] at ht2; cases ht2
      | str s =>
        rw [hprobe] at ht2
        have hs : s ≠ "" := by
          simpa [NodeProbe.truthy] using ht2
        obtain ⟨p, v, h1, h2, h3⟩ := nodeProbeValue_str hprobe
        exact ⟨p, v, s, h1, h2, h3, hs⟩
    · rintro ⟨p, v, s, h1, h2, h3, hs⟩
      have hprobe : nodeProbeValue env = NodeProbe.str s :=
        nodeProbeValue_some h1 h2 h3
      show (nodeProbeValue env).truthy = true
      rw [hprobe]
      simpa [NodeProbe.truthy] using hs

/-- Witness for C10: a `process` global whose `versions` object is absent
yields the strict-false, null-version record. -/
theorem envInfo_falsy_metadata_witness :
    getWebSocketEnvironmentInfo { process := some { versions := none } } =
      { isNode := false, nodeMajorVersion := JsNumber.null,
        hasReliableNativeWebSocket := true, requiresWsPackage := false } :=
  (envInfo_falsy_metadata _).1 _ rfl (Or.inl rfl)
